import Mathlib

/-! Shallow embedding of the medication reminder scheduler and
response-reconciliation engine of the Hexa-care backend
(`backend/utils/schedular.py`, `backend/controllers/medication_controller.py`,
`backend/routes/twilio_webhook.py`).

Instants are modelled as natural numbers counting whole minutes in the single
configured timezone; the calendar day of an instant is `t / 1440` and its
wall-clock label is the zero-padded `HH:MM` rendering.  Strings are handled
over `List Char`, with ASCII models of Python's `str.lower`/`str.strip`. -/

/-- One decimal digit as a character, for zero-padded `HH:MM` labels
(mirroring `now.strftime("%H:%M")`). -/
def digitChar : Nat → Char
  | 0 => '0'
  | 1 => '1'
  | 2 => '2'
  | 3 => '3'
  | 4 => '4'
  | 5 => '5'
  | 6 => '6'
  | 7 => '7'
  | 8 => '8'
  | _ => '9'

/-- Two-digit zero-padded rendering of a number below 100. -/
def pad2 (n : Nat) : List Char := [digitChar (n / 10 % 10), digitChar (n % 10)]

/-- `HH:MM` label of an instant, as produced by `now.strftime("%H:%M")` in
`check_and_send_sms`. -/
def timeLabel (t : Nat) : String := ⟨pad2 (t % 1440 / 60) ++ ':' :: pad2 (t % 60)⟩

/-- Calendar day of an instant (`datetime.date()` on the model timeline). -/
def dayOf (t : Nat) : Nat := t / 1440

/-- Python `str.lower()` restricted to ASCII, as applied to inbound texts. -/
def pyLower (l : List Char) : List Char := l.map Char.toLower

/-- Python `str.strip()`: drop whitespace from both ends. -/
def pyStrip (l : List Char) : List Char :=
  ((l.dropWhile Char.isWhitespace).reverse.dropWhile Char.isWhitespace).reverse

/-- Python's substring test `p in s`. -/
def containsSub (p : List Char) : List Char → Bool
  | [] => p.isEmpty
  | c :: cs => p.isPrefixOf (c :: cs) || containsSub p cs

/-- The characters of the literal `"whatsapp:"`. -/
def wpat : List Char := ['w', 'h', 'a', 't', 's', 'a', 'p', 'p', ':']

/-- Python `s.replace("whatsapp:", "")`: remove every occurrence of the
pattern, scanning left to right.  An explicit fuel argument (one unit per
character examined) keeps the recursion structural; any fuel of at least the
length of the list realises the replace semantics, and `replaceWhatsapp`
supplies exactly that. -/
def replWFuel : Nat → List Char → List Char
  | 0, l => l
  | _ + 1, [] => []
  | n + 1, c :: cs =>
    if wpat.isPrefixOf (c :: cs) then replWFuel n (cs.drop 8)
    else c :: replWFuel n cs

/-- `s.replace("whatsapp:", "")` over the characters of `s`. -/
def replaceWhatsapp (l : List Char) : List Char := replWFuel l.length l

/-- `re.sub(r'[^\d+]', '', s)`: keep only decimal digits and plus signs. -/
def keepDigitsPlus (l : List Char) : List Char :=
  l.filter (fun c => c.isDigit || c == '+')

/-- `normalize_phone_number` from `medication_controller.py`: drop
`whatsapp:` occurrences, keep only digits and plus signs, and prepend a plus
sign unless the result already starts with one. -/
def normalize_phone_number (s : String) : String :=
  if (keepDigitsPlus (replaceWhatsapp s.toList)).head? = some '+' then
    ⟨keepDigitsPlus (replaceWhatsapp s.toList)⟩
  else ⟨'+' :: keepDigitsPlus (replaceWhatsapp s.toList)⟩

/-- A medication document: the fields of the `medications` collection read
by the scheduler and the status queries. -/
structure Medication where
  id : String
  patient_name : String
  contact_number : String
  name : String
  dosage : String
  message : Option String
  times : List String
  start_date : Nat
  duration_days : Nat
  user_id : Option String
  deriving DecidableEq

/-- A `medication_logs` document (duck-typed in the source; optional fields
are `Option`-valued).  `sent_time` is `none` only for synthesized rows. -/
structure LogEntry where
  id : Nat
  medication_id : String
  patient_name : String
  contact_number : String
  scheduled_time : String
  sent_time : Option Nat
  status : String
  response_received : Bool
  response_time : Option Nat
  response_message : String
  user_id : Option String
  deriving DecidableEq

/-- A `medication_confirmations` document. -/
structure Confirmation where
  medication_id : String
  patient_name : String
  contact_number : String
  scheduled_time : String
  confirmation_time : Nat
  is_taken : Bool
  response_message : String
  log_id : Nat
  user_id : Option String
  deriving DecidableEq

/-- The durable state the claims are about: the reminder log and the
confirmations, plus a counter supplying fresh document ids. -/
structure DB where
  logs : List LogEntry
  confirmations : List Confirmation
  nextId : Nat
  deriving DecidableEq

def emptyDB : DB := ⟨[], [], 0⟩

/-- The positive confirmation keywords of `process_medication_response`. -/
def positive_keywords : List String :=
  ["yes", "y", "taken", "done", "ok", "okay", "completed", "finished"]

/-- The negative confirmation keywords of `process_medication_response`. -/
def negative_keywords : List String :=
  ["no", "n", "not taken", "missed", "forgot", "skip", "skipped"]

/-- `message.lower().strip()` as a character list. -/
def cleanMessage (msg : String) : List Char := pyStrip (pyLower msg.toList)

/-- `any(keyword in message_lower for keyword in positive_keywords)`. -/
def isPositiveMsg (msg : String) : Bool :=
  positive_keywords.any (fun k => containsSub k.toList (cleanMessage msg))

/-- `any(keyword in message_lower for keyword in negative_keywords)`. -/
def isNegativeMsg (msg : String) : Bool :=
  negative_keywords.any (fun k => containsSub k.toList (cleanMessage msg))

inductive Intent where
  | affirmative
  | negative
  | unrecognized
  deriving DecidableEq

/-- Intent classification as realised by `process_medication_response`: the
text is ignored only when `not (is_positive or is_negative)`; otherwise it is
resolved, with the positive test taking precedence
(`new_status = "taken" if is_positive else "missed"`). -/
def classifyIntent (msg : String) : Intent :=
  if !(isPositiveMsg msg || isNegativeMsg msg) then Intent.unrecognized
  else if isPositiveMsg msg then Intent.affirmative
  else Intent.negative

/-- The log document inserted by `check_and_send_sms`: status `pending`, no
`user_id` field, no duplicate check before insertion. -/
def schedulerLogEntry (med : Medication) (label : String) (now : Nat) (docId : Nat) : LogEntry :=
  { id := docId, medication_id := med.id, patient_name := med.patient_name,
    contact_number := med.contact_number, scheduled_time := label,
    sent_time := some now, status := "pending", response_received := false,
    response_time := none, response_message := "", user_id := none }

/-- `(now.date() - start.date()).days` as an integer number of days. -/
def daysElapsed (startDate now : Nat) : Int :=
  (dayOf now : Int) - (dayOf startDate : Int)

/-- `check_and_send_sms` from `schedular.py`: for each medication whose
`times` set contains the current `HH:MM` label, skip it when
`days_elapsed >= duration_days or days_elapsed < 0`, otherwise insert a new
pending log entry unconditionally.  The message build and the SMS/WhatsApp
sends are external side effects with no bearing on the stored state. -/
def check_and_send_sms (meds : List Medication) (now : Nat) (db : DB) : DB :=
  (meds.filter (fun m => m.times.contains (timeLabel now))).foldl
    (fun acc m =>
      if daysElapsed m.start_date now ≥ (m.duration_days : Int) ∨
          daysElapsed m.start_date now < 0 then acc
      else
        { acc with
            logs := acc.logs ++ [schedulerLogEntry m (timeLabel now) now acc.nextId],
            nextId := acc.nextId + 1 })
    db

/-- Number of reminder-log entries carrying the key (medication id, slot
label, calendar day of dispatch). -/
def countKey (logs : List LogEntry) (mid slot : String) (day : Nat) : Nat :=
  (logs.filter (fun e =>
    e.medication_id == mid && e.scheduled_time == slot &&
      e.sent_time.map dayOf == some day)).length

/-- A concrete medication: slot 08:00, start day 0, five-day course. -/
def c1Med : Medication :=
  { id := "m1", patient_name := "Alice", contact_number := "+111",
    name := "Aspirin", dosage := "100mg", message := none,
    times := ["08:00"], start_date := 0, duration_days := 5, user_id := none }

/-- The activity predicate exactly as the claim words it: active iff
`start_date <= now <= start_date + duration_days`, inclusive at both ends,
evaluated on calendar-day boundaries. -/
def specActiveInclusive (m : Medication) (now : Nat) : Prop :=
  dayOf m.start_date ≤ dayOf now ∧ dayOf now ≤ dayOf m.start_date + m.duration_days

/-- A concrete medication: slot 08:00, start day 0, one-day course. -/
def c6Med : Medication :=
  { id := "m2", patient_name := "Bob", contact_number := "+222",
    name := "Ibuprofen", dosage := "200mg", message := none,
    times := ["08:00"], start_date := 0, duration_days := 1, user_id := none }

/-- Order-preserving deduplication keeping first occurrences, as
`list(dict.fromkeys(...))` does; `seen` accumulates the keys already kept. -/
def dedupGo : List String → List String → List String
  | _, [] => []
  | seen, x :: xs =>
    if seen.contains x then dedupGo seen xs else x :: dedupGo (x :: seen) xs

/-- `list(dict.fromkeys(possible_numbers))`. -/
def dedupKeepFirst (l : List String) : List String := dedupGo [] l

/-- `possible_numbers` from `process_medication_response`: the normalized
number, the raw number, the raw number with `whatsapp:` occurrences removed,
and a plus sign prepended to the raw number with `whatsapp:` and every plus
sign removed; deduplicated keeping first occurrences. -/
def possibleNumbers (contact : String) : List String :=
  dedupKeepFirst
    [normalize_phone_number contact,
     contact,
     ⟨replaceWhatsapp contact.toList⟩,
     ⟨'+' :: (replaceWhatsapp contact.toList).filter (fun c => !(c == '+'))⟩]

/-- Dispatch instant of an entry; qualifying entries always carry one. -/
def sentVal (e : LogEntry) : Nat := e.sent_time.getD 0

/-- The `find_one` filter of `process_medication_response`: status pending,
contact number among the candidate formats, and dispatch instant at least
the lookback threshold (an absent `sent_time` matches no date bound). -/
def pendingQuery (addrs : List String) (threshold : Nat) (e : LogEntry) : Bool :=
  e.status == "pending" && addrs.contains e.contact_number &&
    (match e.sent_time with
     | some t => threshold ≤ t
     | none => false)

/-- `find_one(..., sort=[("sent_time", -1)])` over an explicit list: the
entry with the greatest dispatch instant (first such one, scanning left to
right), carried in an accumulator. -/
def pickLatest : Option LogEntry → List LogEntry → Option LogEntry
  | acc, [] => acc
  | none, x :: xs => pickLatest (some x) xs
  | some b, x :: xs =>
    if sentVal b < sentVal x then pickLatest (some x) xs
    else pickLatest (some b) xs

/-- Candidate selection of the Response Matcher: the most recent entry of
the log satisfying the pending query. -/
def selectCandidate (logs : List LogEntry) (addrs : List String)
    (threshold : Nat) : Option LogEntry :=
  pickLatest none (logs.filter (pendingQuery addrs threshold))

/-- The dictionary statuses returned by `process_medication_response`. -/
inductive ProcOutcome where
  | ignored
  | noPending
  | success (is_taken : Bool) (patient_name : String)
  | failure (msg : String)
  deriving DecidableEq

/-- `update_one({"_id": target}, {"$set": {...}})`: the filter matches on
the document id alone, so the write applies whatever the current status of
the entry is. -/
def updateLogStatus (logs : List LogEntry) (target : Nat) (newStatus : String)
    (now : Nat) (msg : String) : List LogEntry :=
  logs.map (fun e =>
    if e.id == target then
      { e with status := newStatus, response_received := true,
               response_time := some now, response_message := msg }
    else e)

/-- The confirmation document built by `process_medication_response`. -/
def mkConfirmation (e : LogEntry) (normalized : String) (now : Nat)
    (pos : Bool) (msg : String) : Confirmation :=
  { medication_id := e.medication_id, patient_name := e.patient_name,
    contact_number := normalized, scheduled_time := e.scheduled_time,
    confirmation_time := now, is_taken := pos, response_message := msg,
    log_id := e.id, user_id := e.user_id }

/-- `process_medication_response`: classify the text and return `ignored`
without touching the store when neither keyword set matches; otherwise look
up the most recent pending entry for the candidate numbers dispatched within
the last four hours (240 minutes, truncated at zero on this model's
timeline).  On a hit, overwrite that entry by document id and append a
confirmation unconditionally after the write. -/
def process_medication_response (db : DB) (contact msg : String) (now : Nat) :
    DB × ProcOutcome :=
  if !(isPositiveMsg msg || isNegativeMsg msg) then (db, ProcOutcome.ignored)
  else
    match selectCandidate db.logs (possibleNumbers contact) (now - 240) with
    | none => (db, ProcOutcome.noPending)
    | some e =>
      ({ db with
          logs := updateLogStatus db.logs e.id
            (if isPositiveMsg msg then ("taken") else ("missed")) now msg,
          confirmations := db.confirmations ++
            [mkConfirmation e (normalize_phone_number contact) now
              (isPositiveMsg msg) msg] },
       ProcOutcome.success (isPositiveMsg msg) e.patient_name)

/-- The TwiML wrapper of `twilio_webhook`. -/
def twimlWrap (m : String) : String :=
  "<?xml version=\"1.0\" encoding=\"UTF-8\"?>\n<Response>\n    <Message>"
    ++ m ++ "</Message>\n</Response>"

def takenAckMsg (p : String) : String :=
  "Great job " ++ p ++
    "! ✅ Your medication has been marked as taken. Keep up the good work!"

def missedAckMsg (p : String) : String :=
  "Thanks for letting us know " ++ p ++
    ". ⚠️ Your medication has been marked as missed. Please try to take it when possible and consult your doctor if you have concerns."

def noPendingAckMsg : String :=
  "We couldn\x27t find a recent medication reminder for your number. If you need help, please contact your healthcare provider."

def genericAckMsg : String :=
  "Thank you for your message. If you need assistance, please contact your healthcare provider."

def technicalFallbackMsg : String :=
  "Thank you for your message. We\x27re experiencing technical difficulties. Please contact your healthcare provider if you need immediate assistance."

/-- `twilio_webhook`: map the processing outcome — or an exception raised
while handling the request, modelled as `Except.error` — to the auto-reply
body.  Every path yields a TwiML reply; the exception path yields the
generic technical-difficulties fallback. -/
def twilio_webhook (r : Except String ProcOutcome) : String :=
  match r with
  | Except.error _ => twimlWrap technicalFallbackMsg
  | Except.ok (ProcOutcome.success true p) => twimlWrap (takenAckMsg p)
  | Except.ok (ProcOutcome.success false p) => twimlWrap (missedAckMsg p)
  | Except.ok ProcOutcome.noPending => twimlWrap noPendingAckMsg
  | Except.ok _ => twimlWrap genericAckMsg

/-- Case-insensitive exact patient-name match:
`{"$regex": "^<name>$", "$options": "i"}`. -/
def nameMatch (a b : String) : Bool := pyLower a.toList == pyLower b.toList

/-- The optional owning-account filter (`query["user_id"] = user_id`). -/
def userMatch (entryUser : Option String) (filterUser : Option String) : Bool :=
  match filterUser with
  | some u => entryUser == some u
  | none => true

/-- Floor of a rational number, via floor division of the numerator. -/
def ratFloor (q : ℚ) : ℤ := q.num.fdiv q.den

/-- Python `round(x, 2)` over exact rationals: round to two decimal places,
ties to the even hundredth. -/
def pyRound2 (q : ℚ) : ℚ :=
  (if q * 100 - ratFloor (q * 100) < 1 / 2 then (ratFloor (q * 100) : ℚ)
   else if 1 / 2 < q * 100 - ratFloor (q * 100) then (ratFloor (q * 100) : ℚ) + 1
   else if 2 ∣ ratFloor (q * 100) then (ratFloor (q * 100) : ℚ)
   else (ratFloor (q * 100) : ℚ) + 1) / 100

/-- The log entries selected by `get_medication_adherence`: patient name
matching case-insensitively, dispatch instant within
`[now - days*1440, now]`, and the optional owning-account filter. -/
def adherenceSelection (logs : List LogEntry) (patient : String)
    (days now : Nat) (user : Option String) : List LogEntry :=
  logs.filter (fun e =>
    nameMatch e.patient_name patient &&
    (match e.sent_time with
     | some t => now - days * 1440 ≤ t && t ≤ now
     | none => false) &&
    userMatch e.user_id user)

/-- The adherence statistics returned by `get_medication_adherence`. -/
structure AdherenceStats where
  total : Nat
  taken : Nat
  missed : Nat
  pending : Nat
  rate : ℚ
  deriving DecidableEq

/-- `get_medication_adherence`: count the selected entries by status and
compute `round(taken / total * 100, 2)`, or rate 0 when no entry was
selected. -/
def get_medication_adherence (logs : List LogEntry) (patient : String)
    (days now : Nat) (user : Option String) : AdherenceStats :=
  { total := (adherenceSelection logs patient days now user).length,
    taken := ((adherenceSelection logs patient days now user).filter
      (fun e => e.status == "taken")).length,
    missed := ((adherenceSelection logs patient days now user).filter
      (fun e => e.status == "missed")).length,
    pending := ((adherenceSelection logs patient days now user).filter
      (fun e => e.status == "pending")).length,
    rate :=
      if (adherenceSelection logs patient days now user).length = 0 then 0
      else pyRound2
        ((((adherenceSelection logs patient days now user).filter
            (fun e => e.status == "taken")).length : ℚ) /
          ((adherenceSelection logs patient days now user).length : ℚ) * 100) }

/-- One row of the `today_logs` answer of `get_medication_status`; real rows
render their document id as a string, synthesized rows use a placeholder. -/
structure StatusRow where
  row_id : String
  medication_id : String
  patient_name : String
  contact_number : String
  scheduled_time : String
  sent_time : Option Nat
  status : String
  response_received : Bool
  response_time : Option Nat
  response_message : String
  deriving DecidableEq

/-- Render a stored log entry as a row (`str(log["_id"])` plus the stored
fields). -/
def rowOfLog (e : LogEntry) : StatusRow :=
  { row_id := toString e.id, medication_id := e.medication_id,
    patient_name := e.patient_name, contact_number := e.contact_number,
    scheduled_time := e.scheduled_time, sent_time := e.sent_time,
    status := e.status, response_received := e.response_received,
    response_time := e.response_time, response_message := e.response_message }

/-- Midnight of the current day
(`datetime.now().replace(hour=0, minute=0, ...)`). -/
def startOfDay (now : Nat) : Nat := dayOf now * 1440

/-- `sent_time` within `[today, tomorrow)`; an absent instant matches no
date-range query. -/
def inToday (sent : Option Nat) (now : Nat) : Bool :=
  match sent with
  | some t => startOfDay now ≤ t && t < startOfDay now + 1440
  | none => false

/-- Ordering of rows by dispatch instant (`.sort("sent_time", 1)`). -/
def sentRowLe (a b : StatusRow) : Prop :=
  a.sent_time.getD 0 ≤ b.sent_time.getD 0

instance : DecidableRel sentRowLe :=
  fun a b => Nat.decLe (a.sent_time.getD 0) (b.sent_time.getD 0)

/-- Today's stored rows for the patient, sorted by dispatch instant. -/
def realTodayRows (logs : List LogEntry) (patient : String)
    (user : Option String) (now : Nat) : List StatusRow :=
  List.insertionSort sentRowLe
    ((logs.filter (fun e =>
        nameMatch e.patient_name patient && userMatch e.user_id user &&
          inToday e.sent_time now)).map rowOfLog)

/-- The active-medication test of `get_medication_status`:
`start_date <= current_time` in the query and
`current_time <= start_date + timedelta(days=duration_days)` in the loop. -/
def activeMedToday (m : Medication) (patient : String) (user : Option String)
    (now : Nat) : Bool :=
  nameMatch m.patient_name patient && userMatch m.user_id user &&
    m.start_date ≤ now && now ≤ m.start_date + m.duration_days * 1440

/-- The `existing_log` probe: some entry of this medication and slot was
dispatched today (the probe does not filter by patient or account). -/
def hasLogToday (logs : List LogEntry) (mid slot : String) (now : Nat) : Bool :=
  logs.any (fun e =>
    e.medication_id == mid && e.scheduled_time == slot && inToday e.sent_time now)

/-- A synthesized pending row: placeholder id `pending_<id>_<slot>` and
empty dispatch metadata. -/
def synthRow (patient mid slot : String) : StatusRow :=
  { row_id := ("pending_") ++ mid ++ ("_") ++ slot, medication_id := mid,
    patient_name := patient, contact_number := "", scheduled_time := slot,
    sent_time := none, status := "pending", response_received := false,
    response_time := none, response_message := "" }

/-- One synthesized pending row per (active medication, slot) pair that has
no stored entry today. -/
def synthPendingRows (meds : List Medication) (logs : List LogEntry)
    (patient : String) (user : Option String) (now : Nat) : List StatusRow :=
  (meds.filter (fun m => activeMedToday m patient user now)).flatMap
    (fun m => (m.times.filter (fun slot => !(hasLogToday logs m.id slot now))).map
      (synthRow patient m.id))

/-- Lexicographic string order by code point, Python's string comparison. -/
def charListLe : List Char → List Char → Bool
  | [], _ => true
  | _ :: _, [] => false
  | c :: cs, d :: ds =>
    (c.toNat < d.toNat) || (c.toNat == d.toNat && charListLe cs ds)

/-- Ordering of rows by slot label (`sort(key=lambda x: x["scheduled_time"])`). -/
def slotLe (a b : StatusRow) : Prop :=
  charListLe a.scheduled_time.toList b.scheduled_time.toList = true

instance : DecidableRel slotLe :=
  fun a b => inferInstanceAs
    (Decidable (charListLe a.scheduled_time.toList b.scheduled_time.toList = true))

instance : IsTotal StatusRow slotLe := by
  constructor
  intro a b
  show charListLe a.scheduled_time.toList b.scheduled_time.toList = true ∨
    charListLe b.scheduled_time.toList a.scheduled_time.toList = true
  generalize a.scheduled_time.toList = u
  generalize b.scheduled_time.toList = v
  induction u generalizing v with
  | nil => left; rfl
  | cons c cs ih =>
    cases v with
    | nil => right; rfl
    | cons d ds =>
      simp only [charListLe, Bool.or_eq_true, Bool.and_eq_true, decide_eq_true_eq,
        beq_iff_eq]
      rcases Nat.lt_trichotomy c.toNat d.toNat with h | h | h
      · exact Or.inl (Or.inl h)
      · rcases ih ds with h2 | h2
        · exact Or.inl (Or.inr ⟨h, h2⟩)
        · exact Or.inr (Or.inr ⟨h.symm, h2⟩)
      · exact Or.inr (Or.inl h)

instance : IsTrans StatusRow slotLe := by
  constructor
  intro a b c hab hbc
  show charListLe a.scheduled_time.toList c.scheduled_time.toList = true
  rw [show slotLe a b = (charListLe a.scheduled_time.toList
    b.scheduled_time.toList = true) from rfl] at hab
  rw [show slotLe b c = (charListLe b.scheduled_time.toList
    c.scheduled_time.toList = true) from rfl] at hbc
  generalize hu : a.scheduled_time.toList = u at hab
  generalize hv : b.scheduled_time.toList = v at hab hbc
  generalize hw : c.scheduled_time.toList = w at hbc
  clear hu hv hw
  induction u generalizing v w with
  | nil => rfl
  | cons x xs ih =>
    cases v with
    | nil => exact absurd hab (by simp [charListLe])
    | cons y ys =>
      cases w with
      | nil => exact absurd hbc (by simp [charListLe])
      | cons z zs =>
        simp only [charListLe, Bool.or_eq_true, Bool.and_eq_true,
          decide_eq_true_eq, beq_iff_eq] at hab hbc ⊢
        rcases hab with h1 | ⟨h1, h1t⟩
        · rcases hbc with h2 | ⟨h2, h2t⟩
          · exact Or.inl (Nat.lt_trans h1 h2)
          · exact Or.inl (h2 ▸ h1)
        · rcases hbc with h2 | ⟨h2, h2t⟩
          · exact Or.inl (h1 ▸ h2)
          · exact Or.inr ⟨h1.trans h2, ih ys h1t zs h2t⟩

/-- The `today_logs` list of `get_medication_status`: real rows plus
synthesized pending rows, sorted by slot label (Python's stable `sort`
modelled by insertion sort). -/
def get_medication_status (meds : List Medication) (logs : List LogEntry)
    (patient : String) (user : Option String) (now : Nat) : List StatusRow :=
  List.insertionSort slotLe
    (realTodayRows logs patient user now ++
      synthPendingRows meds logs patient user now)

/-- An already-resolved log entry (status taken), used to probe the guard of
the resolution write. -/
def c2Entry : LogEntry :=
  { id := 7, medication_id := "m9", patient_name := "Dan",
    contact_number := "+555", scheduled_time := "09:00", sent_time := some 540,
    status := "taken", response_received := true, response_time := some 560,
    response_message := "yes", user_id := none }

/-- The entry `c2Entry` after the unguarded overwrite to missed. -/
def c2EntryMissed : LogEntry :=
  { c2Entry with
      status := "missed", response_received := true,
      response_time := some 565, response_message := "no" }

/-- A pending entry dispatched at instant 100. -/
def c4LogA : LogEntry :=
  { id := 2, medication_id := "m4", patient_name := "Fay",
    contact_number := "+333", scheduled_time := "01:00", sent_time := some 100,
    status := "pending", response_received := false, response_time := none,
    response_message := "", user_id := none }

/-- A pending entry dispatched at instant 200. -/
def c4LogB : LogEntry :=
  { id := 3, medication_id := "m4", patient_name := "Fay",
    contact_number := "+333", scheduled_time := "03:00", sent_time := some 200,
    status := "pending", response_received := false, response_time := none,
    response_message := "", user_id := none }

/-- Four of Eve's entries inside the adherence window: two taken, one
missed, one pending. -/
def c5Logs : List LogEntry :=
  [{ id := 10, medication_id := "m5", patient_name := "Eve",
     contact_number := "+777", scheduled_time := "08:00", sent_time := some 900,
     status := "taken", response_received := true, response_time := some 905,
     response_message := "yes", user_id := none },
   { id := 11, medication_id := "m5", patient_name := "Eve",
     contact_number := "+777", scheduled_time := "12:00", sent_time := some 920,
     status := "taken", response_received := true, response_time := some 925,
     response_message := "yes", user_id := none },
   { id := 12, medication_id := "m5", patient_name := "Eve",
     contact_number := "+777", scheduled_time := "18:00", sent_time := some 940,
     status := "missed", response_received := true, response_time := some 945,
     response_message := "no", user_id := none },
   { id := 13, medication_id := "m5", patient_name := "Eve",
     contact_number := "+777", scheduled_time := "22:00", sent_time := some 960,
     status := "pending", response_received := false, response_time := none,
     response_message := "", user_id := none }]

/-- A medication active today with slots 08:00 and 20:00. -/
def c8Med : Medication :=
  { id := "m3", patient_name := "Carol", contact_number := "+666",
    name := "Metformin", dosage := "500mg", message := none,
    times := ["08:00", "20:00"], start_date := 0, duration_days := 5,
    user_id := none }

/-- The real entry for the 08:00 slot, dispatched at 08:00 today. -/
def c8Log : LogEntry :=
  { id := 1, medication_id := "m3", patient_name := "Carol",
    contact_number := "+666", scheduled_time := "08:00", sent_time := some 480,
    status := "taken", response_received := true, response_time := some 490,
    response_message := "yes", user_id := none }

theorem toList_mk (l : List Char) : (String.mk l).toList = l := rfl

theorem replWFuel_no_w {l : List Char} (h : ∀ c ∈ l, c ≠ 'w') :
    ∀ n, replWFuel n l = l := by
  induction l with
  | nil => intro n; cases n <;> rfl
  | cons c cs ih =>
    intro n
    cases n with
    | zero => rfl
    | succ n =>
      have hc : c ≠ 'w' := h c (List.mem_cons_self c cs)
      have hpre : wpat.isPrefixOf (c :: cs) = false := by
        simp only [wpat, List.isPrefixOf, Bool.and_eq_false_iff]
        left
        simp only [beq_eq_false_iff_ne, ne_eq]
        exact fun hw => hc hw.symm
      simp only [replWFuel, hpre, if_neg]
      rw [ih (fun x hx => h x (List.mem_cons_of_mem c hx)) n]
      simp

theorem replaceWhatsapp_no_w {l : List Char} (h : ∀ c ∈ l, c ≠ 'w') :
    replaceWhatsapp l = l := replWFuel_no_w h l.length

theorem keepDigitsPlus_mem {l : List Char} {c : Char} (h : c ∈ keepDigitsPlus l) :
    c.isDigit || c == '+' := (List.mem_filter.mp h).2

theorem keepDigitsPlus_of_all {l : List Char}
    (h : ∀ c ∈ l, (c.isDigit || c == '+') = true) : keepDigitsPlus l = l :=
  List.filter_eq_self.mpr h

/-- Every character of a normalized number is a digit or a plus sign. -/
theorem normalize_chars (s : String) :
    ∀ c ∈ (normalize_phone_number s).toList, (c.isDigit || c == '+') = true := by
  unfold normalize_phone_number
  by_cases hh : (keepDigitsPlus (replaceWhatsapp s.toList)).head? = some '+'
  · rw [if_pos hh, toList_mk]
    intro c hc
    exact keepDigitsPlus_mem hc
  · rw [if_neg hh, toList_mk]
    intro c hc
    rcases List.mem_cons.mp hc with h | h
    · subst h; decide
    · exact keepDigitsPlus_mem h

/-- A normalized number starts with a plus sign. -/
theorem normalize_head (s : String) :
    (normalize_phone_number s).toList.head? = some '+' := by
  unfold normalize_phone_number
  by_cases hh : (keepDigitsPlus (replaceWhatsapp s.toList)).head? = some '+'
  · rw [if_pos hh, toList_mk]; exact hh
  · rw [if_neg hh, toList_mk]; rfl

/-- Any string that starts with a plus sign and contains only digits and plus
signs is a fixed point of `normalize_phone_number`. -/
theorem normalize_fixed {y : String} (hh : y.toList.head? = some '+')
    (hchars : ∀ c ∈ y.toList, (c.isDigit || c == '+') = true) :
    normalize_phone_number y = y := by
  have hw : ∀ c ∈ y.toList, c ≠ 'w' := by
    intro c hc hcw
    have := hchars c hc
    rw [hcw] at this
    exact absurd this (by decide)
  unfold normalize_phone_number
  rw [replaceWhatsapp_no_w hw, keepDigitsPlus_of_all hchars, if_pos hh]
  rfl

/-- C7: address normalization is idempotent for every input string, and on
the concrete input `whatsapp:+1 234-567-8900` it returns `+12345678900`. -/
theorem c7_normalize_idempotent :
    (∀ x : String,
        normalize_phone_number (normalize_phone_number x) = normalize_phone_number x) ∧
    normalize_phone_number ("whatsapp:+1 234-567-8900") = ("+12345678900") := by
  constructor
  · intro x
    exact normalize_fixed (normalize_head x) (normalize_chars x)
  · decide

/-- C3 counterexample: on the text `yes no` both keyword sets match, yet
classification resolves it as affirmative rather than ignoring it; likewise
`maybe` contains the positive keyword `y` and resolves as affirmative, so
neither the both-match rule nor the `maybe` example of the claim holds. -/
theorem c3_counterexample :
    isPositiveMsg ("yes no") = true ∧ isNegativeMsg ("yes no") = true ∧
    classifyIntent ("yes no") = Intent.affirmative ∧
    classifyIntent ("maybe") = Intent.affirmative := by decide

/-- C3 (amended): classification ignores a text iff neither keyword set
matches; whenever the positive set matches (including when both match) the
text resolves as affirmative; it resolves as negative iff only the negative
set matches.  Concretely `yes` resolves to taken and `No thanks` to missed,
while `maybe` and `yes no` resolve as affirmative rather than Ignored. -/
theorem c3_classification :
    (∀ msg : String,
      (classifyIntent msg = Intent.unrecognized ↔
        (isPositiveMsg msg = false ∧ isNegativeMsg msg = false)) ∧
      (classifyIntent msg = Intent.affirmative ↔ isPositiveMsg msg = true) ∧
      (classifyIntent msg = Intent.negative ↔
        (isPositiveMsg msg = false ∧ isNegativeMsg msg = true))) ∧
    classifyIntent ("yes") = Intent.affirmative ∧
    classifyIntent ("No thanks") = Intent.negative ∧
    classifyIntent ("maybe") = Intent.affirmative ∧
    classifyIntent ("yes no") = Intent.affirmative := by
  refine ⟨fun msg => ?_, by decide, by decide, by decide, by decide⟩
  unfold classifyIntent
  cases hp : isPositiveMsg msg <;> cases hn : isNegativeMsg msg <;> simp

/-- C1: running the tick twice at the same minute (08:00 of the start day)
inserts two pending log entries for the same (medication id, slot label,
calendar day) key — `check_and_send_sms` performs no existing-entry check
before `insert_one`, so the at-most-one-per-day invariant fails under a
duplicated tick. -/
theorem c1_duplicate_on_double_tick :
    countKey ((check_and_send_sms [c1Med] 480
        (check_and_send_sms [c1Med] 480 emptyDB)).logs) ("m1") ("08:00") 0 = 2 := by
  decide

/-- C6 counterexample: at 08:00 of the calendar day
`start_date + duration_days` (duration 1, so the second day) the medication
is active under the claim's inclusive-both-ends predicate and its slot set
contains the current label, yet the tick dispatches nothing: the code skips
whenever `days_elapsed >= duration_days`, an exclusive upper bound. -/
theorem c6_counterexample :
    specActiveInclusive c6Med 1920 ∧
    c6Med.times.contains (timeLabel 1920) = true ∧
    check_and_send_sms [c6Med] 1920 emptyDB = emptyDB := by
  refine ⟨⟨by decide, by decide⟩, by decide, by decide⟩

/-- C6 (amended): starting from an empty log, the tick at `now` dispatches a
reminder for a medication iff its slot set contains the `HH:MM` label of
`now` and `0 ≤ daysElapsed < duration_days`: the upper bound is exclusive,
so the last active day is `start_date + duration_days - 1`; future or
elapsed medications are skipped. -/
theorem c6_dispatch_iff (m : Medication) (now : Nat) :
    (check_and_send_sms [m] now emptyDB).logs ≠ [] ↔
      (m.times.contains (timeLabel now) = true ∧
        0 ≤ daysElapsed m.start_date now ∧
        daysElapsed m.start_date now < (m.duration_days : Int)) := by
  unfold check_and_send_sms
  cases hc : m.times.contains (timeLabel now) with
  | false =>
    simp only [List.filter_cons, hc, List.filter_nil, List.foldl_nil]
    simp [emptyDB]
  | true =>
    simp only [List.filter_cons, hc, if_pos, List.filter_nil, List.foldl_cons,
      List.foldl_nil]
    by_cases hd : daysElapsed m.start_date now ≥ (m.duration_days : Int) ∨
        daysElapsed m.start_date now < 0
    · rw [if_pos hd]
      constructor
      · intro h; exact absurd rfl h
      · rintro ⟨-, h1, h2⟩
        exfalso
        rcases hd with hd | hd <;> omega
    · rw [if_neg hd]
      push_neg at hd
      simp only [emptyDB, List.nil_append, ne_eq, true_and]
      constructor
      · intro _; exact ⟨hd.2, hd.1⟩
      · intro _; simp

theorem pickLatest_mem :
    ∀ (l : List LogEntry) (acc : Option LogEntry) (e : LogEntry),
      pickLatest acc l = some e → e ∈ l ∨ acc = some e := by
  intro l
  induction l with
  | nil =>
    intro acc e h
    right
    simpa only [pickLatest] using h
  | cons x xs ih =>
    intro acc e h
    cases acc with
    | none =>
      simp only [pickLatest] at h
      rcases ih (some x) e h with h1 | h1
      · exact Or.inl (List.mem_cons_of_mem x h1)
      · obtain rfl : x = e := Option.some.inj h1
        exact Or.inl (List.mem_cons_self x xs)
    | some b =>
      simp only [pickLatest] at h
      by_cases hlt : sentVal b < sentVal x
      · rw [if_pos hlt] at h
        rcases ih (some x) e h with h1 | h1
        · exact Or.inl (List.mem_cons_of_mem x h1)
        · obtain rfl : x = e := Option.some.inj h1
          exact Or.inl (List.mem_cons_self x xs)
      · rw [if_neg hlt] at h
        rcases ih (some b) e h with h1 | h1
        · exact Or.inl (List.mem_cons_of_mem x h1)
        · exact Or.inr h1

theorem pickLatest_le :
    ∀ (l : List LogEntry) (acc : Option LogEntry) (e : LogEntry),
      pickLatest acc l = some e →
        (∀ x ∈ l, sentVal x ≤ sentVal e) ∧
        (∀ b, acc = some b → sentVal b ≤ sentVal e) := by
  intro l
  induction l with
  | nil =>
    intro acc e h
    simp only [pickLatest] at h
    refine ⟨fun x hx => absurd hx (List.not_mem_nil x), fun b hb => ?_⟩
    rw [hb] at h
    obtain rfl : b = e := Option.some.inj h
    exact le_refl _
  | cons x xs ih =>
    intro acc e h
    cases acc with
    | none =>
      simp only [pickLatest] at h
      obtain ⟨h1, h2⟩ := ih (some x) e h
      refine ⟨fun y hy => ?_, fun b hb => Option.noConfusion hb⟩
      rcases List.mem_cons.mp hy with rfl | hy'
      · exact h2 y rfl
      · exact h1 y hy'
    | some b =>
      simp only [pickLatest] at h
      by_cases hlt : sentVal b < sentVal x
      · rw [if_pos hlt] at h
        obtain ⟨h1, h2⟩ := ih (some x) e h
        refine ⟨fun y hy => ?_, fun c hc => ?_⟩
        · rcases List.mem_cons.mp hy with rfl | hy'
          · exact h2 y rfl
          · exact h1 y hy'
        · obtain rfl : b = c := Option.some.inj hc
          exact le_trans (le_of_lt hlt) (h2 x rfl)
      · rw [if_neg hlt] at h
        push_neg at hlt
        obtain ⟨h1, h2⟩ := ih (some b) e h
        refine ⟨fun y hy => ?_, fun c hc => ?_⟩
        · rcases List.mem_cons.mp hy with rfl | hy'
          · exact le_trans hlt (h2 b rfl)
          · exact h1 y hy'
        · obtain rfl : b = c := Option.some.inj hc
          exact h2 b rfl

theorem pickLatest_eq_none :
    ∀ (l : List LogEntry) (acc : Option LogEntry),
      pickLatest acc l = none → acc = none ∧ l = [] := by
  intro l
  induction l with
  | nil =>
    intro acc h
    simp only [pickLatest] at h
    exact ⟨h, rfl⟩
  | cons x xs ih =>
    intro acc h
    cases acc with
    | none =>
      simp only [pickLatest] at h
      obtain ⟨h1, -⟩ := ih (some x) h
      exact Option.noConfusion h1
    | some b =>
      simp only [pickLatest] at h
      by_cases hlt : sentVal b < sentVal x
      · rw [if_pos hlt] at h
        obtain ⟨h1, -⟩ := ih (some x) h
        exact Option.noConfusion h1
      · rw [if_neg hlt] at h
        obtain ⟨h1, -⟩ := ih (some b) h
        exact Option.noConfusion h1

/-- C4: candidate selection is exactly "most recent qualifying entry": a
returned entry is in the log, has status pending, a stored address in the
candidate set and a dispatch instant at least the lookback threshold, and no
qualifying entry of the log is more recent; the result is `none` iff no
entry qualifies, in which case the response handler of a recognized reply
reports that no pending reminder was found. -/
theorem c4_candidate_selection :
    (∀ (logs : List LogEntry) (addrs : List String) (threshold : Nat)
        (e : LogEntry),
      selectCandidate logs addrs threshold = some e →
        e ∈ logs ∧ pendingQuery addrs threshold e = true ∧
          ∀ x ∈ logs, pendingQuery addrs threshold x = true →
            sentVal x ≤ sentVal e) ∧
    (∀ (logs : List LogEntry) (addrs : List String) (threshold : Nat),
      selectCandidate logs addrs threshold = none ↔
        ∀ x ∈ logs, pendingQuery addrs threshold x = false) ∧
    (∀ (db : DB) (contact msg : String) (now : Nat),
      (isPositiveMsg msg || isNegativeMsg msg) = true →
      selectCandidate db.logs (possibleNumbers contact) (now - 240) = none →
      process_medication_response db contact msg now =
        (db, ProcOutcome.noPending)) := by
  refine ⟨?_, ?_, ?_⟩
  · intro logs addrs th e h
    unfold selectCandidate at h
    have hmem := pickLatest_mem _ _ _ h
    have hle := pickLatest_le _ _ _ h
    rcases hmem with hm | hm
    · obtain ⟨hm1, hm2⟩ := List.mem_filter.mp hm
      refine ⟨hm1, hm2, fun x hx hq => ?_⟩
      exact hle.1 x (List.mem_filter.mpr ⟨hx, hq⟩)
    · exact Option.noConfusion hm
  · intro logs addrs th
    unfold selectCandidate
    constructor
    · intro h x hx
      obtain ⟨-, hf⟩ := pickLatest_eq_none _ _ h
      by_contra hq
      have hx' : x ∈ logs.filter (pendingQuery addrs th) :=
        List.mem_filter.mpr ⟨hx, by simpa using hq⟩
      rw [hf] at hx'
      exact absurd hx' (List.not_mem_nil x)
    · intro h
      have hf : logs.filter (pendingQuery addrs th) = [] :=
        List.filter_eq_nil_iff.mpr (fun a ha => by rw [h a ha]; simp)
      rw [hf]
      rfl
  · intro db contact msg now hrec hsel
    unfold process_medication_response
    rw [show (!(isPositiveMsg msg || isNegativeMsg msg)) = false by
      rw [hrec]; rfl]
    rw [hsel]
    rfl

/-- Witness for C4: on a log holding two pending entries for the address
(dispatched at 100 and 200), selection returns the entry dispatched at 200
and it dominates every qualifying entry; and on an empty store a recognized
reply is answered with `noPending`. -/
theorem c4_candidate_selection_witness :
    (c4LogB ∈ [c4LogA, c4LogB] ∧ pendingQuery [("+333")] 0 c4LogB = true ∧
      ∀ x ∈ [c4LogA, c4LogB], pendingQuery [("+333")] 0 x = true →
        sentVal x ≤ sentVal c4LogB) ∧
    process_medication_response emptyDB ("+333") ("yes") 300 =
      (emptyDB, ProcOutcome.noPending) :=
  ⟨c4_candidate_selection.1 [c4LogA, c4LogB] [("+333")] 0 c4LogB (by decide),
   c4_candidate_selection.2.2 emptyDB ("+333") ("yes") 300 (by decide)
     (by decide)⟩

/-- C10: on a message matching neither keyword set the response handler
returns `ignored` and the stored state is returned untouched: no log entry
is read or modified and no confirmation is created. -/
theorem c10_unrecognized_frame (db : DB) (contact msg : String) (now : Nat)
    (hp : isPositiveMsg msg = false) (hn : isNegativeMsg msg = false) :
    process_medication_response db contact msg now =
      (db, ProcOutcome.ignored) := by
  unfold process_medication_response
  rw [hp, hn]
  rfl

/-- Witness for C10: the text `hello` matches neither keyword set and is
ignored without touching the store. -/
theorem c10_unrecognized_frame_witness :
    process_medication_response emptyDB ("+444") ("hello") 300 =
      (emptyDB, ProcOutcome.ignored) :=
  c10_unrecognized_frame emptyDB ("+444") ("hello") 300 (by decide) (by decide)

/-- C2: the resolution write is not guarded by the entry still being
pending.  Applied to an entry already resolved as taken, the update — whose
filter matches on the document id alone — still overwrites it to missed and
stamps the new response fields: the `pending → taken|missed` transition is a
blind overwrite, not a conditional one, and in `process_medication_response`
the confirmation insert that follows is unconditional. -/
theorem c2_blind_overwrite :
    updateLogStatus [c2Entry] 7 ("missed") 565 ("no") = [c2EntryMissed] ∧
    (updateLogStatus [c2Entry] 7 ("missed") 565 ("no")).all
      (fun e => e.status == "missed") = true := by decide

/-- The three status counts of a list whose statuses all lie in
{taken, missed, pending} partition its length. -/
theorem statusCount_partition :
    ∀ l : List LogEntry,
      (∀ e ∈ l, e.status = "taken" ∨ e.status = "missed" ∨
        e.status = "pending") →
      (l.filter (fun e => e.status == "taken")).length +
        (l.filter (fun e => e.status == "missed")).length +
        (l.filter (fun e => e.status == "pending")).length = l.length := by
  intro l
  induction l with
  | nil => intro _; rfl
  | cons x xs ih =>
    intro h
    have hxs := ih (fun e he => h e (List.mem_cons_of_mem x he))
    rcases h x (List.mem_cons_self x xs) with hx | hx | hx
    · simp only [List.filter_cons, hx]
      rw [if_pos (by decide), if_neg (by decide), if_neg (by decide)]
      simp only [List.length_cons]
      omega
    · simp only [List.filter_cons, hx]
      rw [if_neg (by decide), if_pos (by decide), if_neg (by decide)]
      simp only [List.length_cons]
      omega
    · simp only [List.filter_cons, hx]
      rw [if_neg (by decide), if_neg (by decide), if_pos (by decide)]
      simp only [List.length_cons]
      omega

/-- C5: over the selected window, `total` is the number of selected
entries, `taken`/`missed`/`pending` are the counts of the respective
statuses, the three counts partition the total when every selected status
lies in {taken, missed, pending}, and the rate is
`round(taken / total * 100, 2)` over exact rationals, or 0 when the total
is 0. -/
theorem c5_adherence_spec (logs : List LogEntry) (patient : String)
    (days now : Nat) (user : Option String)
    (h : ∀ e ∈ adherenceSelection logs patient days now user,
      e.status = "taken" ∨ e.status = "missed" ∨ e.status = "pending") :
    (get_medication_adherence logs patient days now user).total =
      (adherenceSelection logs patient days now user).length ∧
    (get_medication_adherence logs patient days now user).taken =
      ((adherenceSelection logs patient days now user).filter
        (fun e => e.status == "taken")).length ∧
    (get_medication_adherence logs patient days now user).missed =
      ((adherenceSelection logs patient days now user).filter
        (fun e => e.status == "missed")).length ∧
    (get_medication_adherence logs patient days now user).pending =
      ((adherenceSelection logs patient days now user).filter
        (fun e => e.status == "pending")).length ∧
    (get_medication_adherence logs patient days now user).taken +
      (get_medication_adherence logs patient days now user).missed +
      (get_medication_adherence logs patient days now user).pending =
      (get_medication_adherence logs patient days now user).total ∧
    (get_medication_adherence logs patient days now user).rate =
      (if (get_medication_adherence logs patient days now user).total = 0
       then (0 : ℚ)
       else pyRound2
         (((get_medication_adherence logs patient days now user).taken : ℚ) /
           ((get_medication_adherence logs patient days now user).total : ℚ)
           * 100)) :=
  ⟨rfl, rfl, rfl, rfl, statusCount_partition _ h, rfl⟩

/-- Witness for C5: on Eve's four in-window entries (two taken, one missed,
one pending) the statistics and the rate formula are as stated. -/
theorem c5_adherence_spec_witness :
    (get_medication_adherence c5Logs ("Eve") 1 1000 none).total =
      (adherenceSelection c5Logs ("Eve") 1 1000 none).length ∧
    (get_medication_adherence c5Logs ("Eve") 1 1000 none).taken =
      ((adherenceSelection c5Logs ("Eve") 1 1000 none).filter
        (fun e => e.status == "taken")).length ∧
    (get_medication_adherence c5Logs ("Eve") 1 1000 none).missed =
      ((adherenceSelection c5Logs ("Eve") 1 1000 none).filter
        (fun e => e.status == "missed")).length ∧
    (get_medication_adherence c5Logs ("Eve") 1 1000 none).pending =
      ((adherenceSelection c5Logs ("Eve") 1 1000 none).filter
        (fun e => e.status == "pending")).length ∧
    (get_medication_adherence c5Logs ("Eve") 1 1000 none).taken +
      (get_medication_adherence c5Logs ("Eve") 1 1000 none).missed +
      (get_medication_adherence c5Logs ("Eve") 1 1000 none).pending =
      (get_medication_adherence c5Logs ("Eve") 1 1000 none).total ∧
    (get_medication_adherence c5Logs ("Eve") 1 1000 none).rate =
      (if (get_medication_adherence c5Logs ("Eve") 1 1000 none).total = 0
       then (0 : ℚ)
       else pyRound2
         (((get_medication_adherence c5Logs ("Eve") 1 1000 none).taken : ℚ) /
           ((get_medication_adherence c5Logs ("Eve") 1 1000 none).total : ℚ)
           * 100)) :=
  c5_adherence_spec c5Logs ("Eve") 1 1000 none (by decide)

/-- C8: `todayStatus` returns the union of today's real rows and one
synthesized pending row per (active medication, slot) pair with no entry
today, sorted by slot label ascending; concretely, for a medication with
slots 08:00 and 20:00 of which only 08:00 has fired, it returns exactly the
real 08:00 row followed by the synthesized 20:00 row (placeholder id
`pending_m3_20:00`, empty dispatch metadata). -/
theorem c8_today_status :
    (∀ (meds : List Medication) (logs : List LogEntry) (patient : String)
        (user : Option String) (now : Nat),
      List.Perm (get_medication_status meds logs patient user now)
          (realTodayRows logs patient user now ++
            synthPendingRows meds logs patient user now) ∧
        List.Sorted slotLe (get_medication_status meds logs patient user now)) ∧
    get_medication_status [c8Med] [c8Log] ("Carol") none 600 =
      [rowOfLog c8Log, synthRow ("Carol") ("m3") ("20:00")] := by
  refine ⟨fun meds logs patient user now =>
    ⟨List.perm_insertionSort slotLe _, List.sorted_insertionSort slotLe _⟩, ?_⟩
  decide

/-- C9: the webhook maps every processing outcome to an acknowledgment: an
exception while handling yields the generic technical-difficulties
fallback, a resolved reply yields the affirmative or negative template for
the patient, an unmatched reply the no-pending template, and an ignored or
internally failed processing the generic template — a reply is returned on
every path. -/
theorem c9_webhook_ack :
    (∀ err : String,
      twilio_webhook (Except.error err) = twimlWrap technicalFallbackMsg) ∧
    (∀ p : String,
      twilio_webhook (Except.ok (ProcOutcome.success true p)) =
        twimlWrap (takenAckMsg p)) ∧
    (∀ p : String,
      twilio_webhook (Except.ok (ProcOutcome.success false p)) =
        twimlWrap (missedAckMsg p)) ∧
    twilio_webhook (Except.ok ProcOutcome.noPending) =
      twimlWrap noPendingAckMsg ∧
    twilio_webhook (Except.ok ProcOutcome.ignored) = twimlWrap genericAckMsg ∧
    (∀ m : String,
      twilio_webhook (Except.ok (ProcOutcome.failure m)) =
        twimlWrap genericAckMsg) :=
  ⟨fun _ => rfl, fun _ => rfl, fun _ => rfl, rfl, rfl, fun _ => rfl⟩
